import Mathlib

/-!
Shallow embedding of the FlashTrade trading agents.

The primary embedding follows `src/unnamed/part_002` (the simple
`TradingAgent` class): `calculateConfidence`, `makeDecision`,
`calculatePositionSize`, `executeTrade`, `analyzeMarket`, the trading
loop of `startTrading`, and `stop`.  A secondary embedding follows
`src/ai-agents/src/agents/TradingAgent.ts` (`analyzeMarketAndGenerateSignal`
with its fallback signal), which one claim also cites.

JavaScript numbers are modelled as rationals (ℚ); optional fields as
`Option ℚ`; the JavaScript `x || d` default (which treats 0 as falsy) as
`jsOr`; thrown exceptions as `Except AgentError`.
-/

/-- Errors thrown by the agent's collaborators or by the agent itself. -/
inductive AgentError
  | notInitialized
  | dataUnavailable
  | predictionFailure
  | executionFailure
  deriving DecidableEq, Repr

/-- The `action` field of a `TradingDecision` in part_002:
one of the string literals `buy`, `sell`, `hold`. -/
inductive TradeAction
  | buy
  | sell
  | hold
  deriving DecidableEq, Repr

/-- The content of the `reason` string of a `TradingDecision`, kept
structured: each constructor corresponds to one template literal in
`makeDecision`, with its interpolated numbers as arguments. -/
inductive Reason
  | confidenceBelow (confidence minConfidence : ℚ)
  | predictedIncrease (priceChange : ℚ)
  | predictedDecrease (priceChange : ℚ)
  | insufficientChange (priceChange : ℚ)
  deriving DecidableEq, Repr

/-- `TradingDecision` from part_002: `amount` is optional (absent on hold). -/
structure TradingDecision where
  action : TradeAction
  confidence : ℚ
  amount : Option ℚ
  reason : Reason
  deriving DecidableEq, Repr

/-- `MarketData` from part_002: `high24h`, `low24h`, `change24h` optional. -/
structure MarketData where
  symbol : String
  price : ℚ
  volume : ℚ
  timestamp : ℤ
  high24h : Option ℚ
  low24h : Option ℚ
  change24h : Option ℚ
  deriving DecidableEq, Repr

/-- One entry of the portfolio's `positions` array. -/
structure Position where
  symbol : String
  amount : ℚ
  value : ℚ
  deriving DecidableEq, Repr

/-- The `portfolio` field of `TradingContext`. -/
structure Portfolio where
  balance : ℚ
  positions : List Position
  deriving DecidableEq, Repr

/-- `TradingContext` from part_002. -/
structure TradingContext where
  marketData : MarketData
  prediction : ℚ
  confidence : ℚ
  portfolio : Portfolio
  deriving DecidableEq, Repr

/-- The agent's constructor configuration in part_002. -/
structure AgentConfig where
  name : String
  riskTolerance : ℚ
  maxPositionSize : ℚ
  minConfidence : ℚ
  deriving DecidableEq, Repr

/-- JavaScript `x || d` on an optional number: `undefined` and `0` are
falsy, so both fall through to the default `d`. -/
def jsOr (x : Option ℚ) (d : ℚ) : ℚ :=
  match x with
  | none => d
  | some v => if v = 0 then d else v

/-- `Math.sign` on a rational. -/
def signQ (x : ℚ) : ℚ :=
  if 0 < x then 1 else if x < 0 then -1 else 0

/-- `TradingAgent.calculateConfidence` (part_002 lines 168-177).
`priceDirection` is computed from the prediction but never used, exactly
as in the source. -/
def calculateConfidence (marketData : MarketData) (prediction : ℚ) : ℚ :=
  let volatility :=
    |jsOr marketData.high24h marketData.price - jsOr marketData.low24h marketData.price| /
      marketData.price
  let _priceDirection := signQ (prediction - marketData.price)
  let trendConfidence : ℚ := if 0.02 < |jsOr marketData.change24h 0| then 0.8 else 0.6
  let baseConfidence := max 0.1 (1 - volatility)
  min 0.95 (baseConfidence * trendConfidence)

/-- `TradingAgent.calculatePositionSize` (part_002 lines 231-235).
The source performs no validation of the config or the balance. -/
def calculatePositionSize (config : AgentConfig) (balance confidence : ℚ) : ℚ :=
  let maxRisk := balance * config.riskTolerance
  let confidenceAdjusted := maxRisk * confidence
  min confidenceAdjusted (balance * config.maxPositionSize)

/-- `TradingAgent.makeDecision` (part_002 lines 190-229). -/
def makeDecision (config : AgentConfig) (context : TradingContext) : TradingDecision :=
  if context.confidence < config.minConfidence then
    ⟨.hold, context.confidence, none,
      .confidenceBelow context.confidence config.minConfidence⟩
  else
    let priceChange := (context.prediction - context.marketData.price) / context.marketData.price
    let expectedProfit := |priceChange|
    let riskAdjustedAmount := calculatePositionSize config context.portfolio.balance context.confidence
    if 0.02 < priceChange ∧ 0.01 < expectedProfit then
      ⟨.buy, context.confidence, some riskAdjustedAmount, .predictedIncrease priceChange⟩
    else if priceChange < -0.02 ∧ 0.01 < expectedProfit then
      ⟨.sell, context.confidence, some riskAdjustedAmount, .predictedDecrease priceChange⟩
    else
      ⟨.hold, context.confidence, none, .insufficientChange priceChange⟩

/-- `TradingAgent.getPortfolioStatus` (part_002 lines 179-188): mock data. -/
def getPortfolioStatus : Portfolio :=
  ⟨1000, [⟨"ETH", 0.5, 1600⟩, ⟨"METIS", 100, 3500⟩]⟩

/-- `TradingAgent.analyzeMarket` (part_002 lines 114-151).  The mock
market-data fetch and the predictor call are parameters (the real ones
are external network calls); everything else follows the source.  The
`catch` block in the source logs and rethrows, so every error of a
sub-step propagates to the caller unchanged, which the `Except` bind
models directly. -/
def analyzeMarket (isInitialized : Bool) (getMarketData : Except AgentError MarketData)
    (predict : List ℚ → Except AgentError ℚ) (config : AgentConfig) :
    Except AgentError TradingDecision :=
  if isInitialized then do
    let marketData ← getMarketData
    let prediction ← predict [marketData.price]
    let confidence := calculateConfidence marketData prediction
    pure (makeDecision config ⟨marketData, prediction, confidence, getPortfolioStatus⟩)
  else .error .notInitialized

/-- The argument object passed to `hyperionClient.executeTrade` in
part_002 lines 246-251. -/
structure TradeParams where
  action : TradeAction
  symbol : String
  amount : ℚ
  maxSlippage : ℚ
  deriving DecidableEq, Repr

/-- `TradingAgent.executeTrade` (part_002 lines 237-264), parametrised by
the Hyperion client call.  Returns the boolean result together with a
flag recording whether the client was invoked.  On `hold` it returns
`true` without calling the client; a client exception is caught and
mapped to `false`. -/
def executeTrade (clientExecuteTrade : TradeParams → Except AgentError Bool)
    (decision : TradingDecision) (symbol : String) : Bool × Bool :=
  if decision.action = .hold then (true, false)
  else
    match clientExecuteTrade ⟨decision.action, symbol, decision.amount.getD 0, 0.005⟩ with
    | .ok success => (success, true)
    | .error _ => (false, true)

/-- The body of the per-symbol `try` block inside `tradingLoop`
(part_002 lines 275-280): analyze the market, then execute the trade.
The analysis may fail; execution is total. -/
def tickStep (analyze : String → Except AgentError TradingDecision)
    (clientExecuteTrade : TradeParams → Except AgentError Bool) (symbol : String) :
    Except AgentError (TradingDecision × Bool) := do
  let decision ← analyze symbol
  pure (decision, (executeTrade clientExecuteTrade decision symbol).1)

/-- The `tradingLoop` closure of `TradingAgent.startTrading` (part_002
lines 273-285): one tick iterates over all configured symbols; each
symbol's body runs inside a `try`/`catch` whose handler only logs, so a
failure is recorded (`none`) and the loop moves on to the next symbol. -/
def tradingLoop (analyze : String → Except AgentError TradingDecision)
    (clientExecuteTrade : TradeParams → Except AgentError Bool) :
    List String → List (String × Option (TradingDecision × Bool))
  | [] => []
  | symbol :: rest =>
      (symbol, (tickStep analyze clientExecuteTrade symbol).toOption) ::
        tradingLoop analyze clientExecuteTrade rest

/-- The mutable state of a part_002 `TradingAgent` relevant to lifecycle:
the `isInitialized` flag, plus whether a `setInterval` timer registered by
`startTrading` is active.  The source never calls `clearInterval`, so no
operation ever resets `intervalActive`. -/
structure AgentState where
  isInitialized : Bool
  intervalActive : Bool
  deriving DecidableEq, Repr

/-- The state effect of `TradingAgent.startTrading` (part_002 lines
266-292): throws when not initialized; otherwise runs the initial tick
and registers the interval timer. -/
def startTrading (s : AgentState) : Except AgentError AgentState :=
  if s.isInitialized then .ok ⟨s.isInitialized, true⟩
  else .error .notInitialized

/-- `TradingAgent.stop` (part_002 lines 294-297): sets `isInitialized`
to false and nothing else — in particular it does not clear the interval
timer. -/
def stop (s : AgentState) : AgentState :=
  ⟨false, s.intervalActive⟩

/-- Whether the next `setInterval` firing starts a new tick: it does
exactly when the timer is still registered, since `tradingLoop` itself
checks no flag. -/
def timerFiresNewTick (s : AgentState) : Bool :=
  s.intervalActive

/-! Secondary embedding: `src/ai-agents/src/agents/TradingAgent.ts`. -/

/-- The `action` enum of `TradingSignalSchema`. -/
inductive SignalAction
  | BUY
  | SELL
  | HOLD
  | ADD_LIQUIDITY
  deriving DecidableEq, Repr

/-- The `riskLevel` enum of `TradingSignalSchema`. -/
inductive RiskLevel
  | LOW
  | MEDIUM
  | HIGH
  deriving DecidableEq, Repr

/-- `MarketData` of the ai-agents file (zod `MarketDataSchema`). -/
structure MarketDataAI where
  pair : String
  reserveA : String
  reserveB : String
  price : ℚ
  volume24h : ℚ
  timestamp : ℤ
  deriving DecidableEq, Repr

/-- `TradingSignal` of the ai-agents file (zod `TradingSignalSchema`);
confidence is on a 0-100 scale there. -/
structure TradingSignal where
  action : SignalAction
  confidence : ℚ
  amount : Option String
  expectedPrice : ℚ
  riskLevel : RiskLevel
  mevRisk : Bool
  deriving DecidableEq, Repr

/-- `TradingAgent.parseAIResponse` (ai-agents lines 392-402): the current
source ignores the response text and returns a fixed HOLD signal. -/
def parseAIResponse (_response : String) (marketData : MarketDataAI) : TradingSignal :=
  ⟨.HOLD, 50, none, marketData.price, .MEDIUM, false⟩

/-- `TradingAgent.generateFallbackSignal` (ai-agents lines 407-415):
the degraded signal used when AI analysis fails. -/
def generateFallbackSignal (marketData : MarketDataAI) : TradingSignal :=
  ⟨.HOLD, 30, none, marketData.price, .HIGH, false⟩

/-- `TradingAgent.analyzeMarketAndGenerateSignal` (ai-agents lines
243-270), parametrised by the outcome of the `agent.run` call: on
success the response is parsed, on failure the error is caught and the
fallback signal returned. -/
def analyzeMarketAndGenerateSignal (agentRun : Except AgentError String)
    (marketData : MarketDataAI) : TradingSignal :=
  match agentRun with
  | .ok response => parseAIResponse response marketData
  | .error _ => generateFallbackSignal marketData

/-- The `priceChange` quantity computed inside `makeDecision`
(part_002 line 202). -/
def priceChange (context : TradingContext) : ℚ :=
  (context.prediction - context.marketData.price) / context.marketData.price

/-- Helper: `makeDecision` written out as a nested conditional over
`priceChange`, definitionally equal to the source translation. -/
theorem makeDecision_eq (config : AgentConfig) (context : TradingContext) :
    makeDecision config context =
      if context.confidence < config.minConfidence then
        ⟨.hold, context.confidence, none,
          .confidenceBelow context.confidence config.minConfidence⟩
      else if 0.02 < priceChange context ∧ 0.01 < |priceChange context| then
        ⟨.buy, context.confidence,
          some (calculatePositionSize config context.portfolio.balance context.confidence),
          .predictedIncrease (priceChange context)⟩
      else if priceChange context < -0.02 ∧ 0.01 < |priceChange context| then
        ⟨.sell, context.confidence,
          some (calculatePositionSize config context.portfolio.balance context.confidence),
          .predictedDecrease (priceChange context)⟩
      else
        ⟨.hold, context.confidence, none, .insufficientChange (priceChange context)⟩ := rfl

/-- C1: whenever the computed confidence is strictly below
`config.minConfidence`, `makeDecision` returns `hold` with a reason citing
the confidence deficit, for every context — in particular regardless of
the price change between prediction and snapshot price; the confidence
gate is the first test and wins. -/
theorem confidence_gate_first (config : AgentConfig) (context : TradingContext)
    (h : context.confidence < config.minConfidence) :
    makeDecision config context =
      ⟨.hold, context.confidence, none,
        .confidenceBelow context.confidence config.minConfidence⟩ := by
  rw [makeDecision_eq, if_pos h]

/-- Witness for C1, Scenario C of the spec: price 100, predicted 105,
confidence 0.3, minConfidence 0.5 gives hold with the deficit reason. -/
theorem confidence_gate_first_witness :
    (0.3 : ℚ) < 0.5 ∧
      makeDecision ⟨"agent", 0.1, 0.05, 0.5⟩
          ⟨⟨"ETH", 100, 0, 0, none, none, none⟩, 105, 0.3, getPortfolioStatus⟩ =
        ⟨.hold, 0.3, none, .confidenceBelow 0.3 0.5⟩ :=
  ⟨by norm_num, confidence_gate_first _ _ (by norm_num)⟩

/-- C2: once the confidence gate passes, `makeDecision` is determined by
`priceChange`: buy when it exceeds 0.02 with magnitude above 0.01, sell
when below -0.02 with magnitude above 0.01, otherwise hold with the
insufficient-magnitude reason. -/
theorem decision_thresholds (config : AgentConfig) (context : TradingContext)
    (h : ¬ context.confidence < config.minConfidence) :
    ((0.02 < priceChange context ∧ 0.01 < |priceChange context|) →
        makeDecision config context =
          ⟨.buy, context.confidence,
            some (calculatePositionSize config context.portfolio.balance context.confidence),
            .predictedIncrease (priceChange context)⟩) ∧
    ((priceChange context < -0.02 ∧ 0.01 < |priceChange context|) →
        makeDecision config context =
          ⟨.sell, context.confidence,
            some (calculatePositionSize config context.portfolio.balance context.confidence),
            .predictedDecrease (priceChange context)⟩) ∧
    (¬ (0.02 < priceChange context ∧ 0.01 < |priceChange context|) →
      ¬ (priceChange context < -0.02 ∧ 0.01 < |priceChange context|) →
        makeDecision config context =
          ⟨.hold, context.confidence, none, .insufficientChange (priceChange context)⟩) := by
  refine ⟨fun hb => ?_, fun hs => ?_, fun hnb hns => ?_⟩
  · rw [makeDecision_eq, if_neg h, if_pos hb]
  · have hnb : ¬ (0.02 < priceChange context ∧ 0.01 < |priceChange context|) := by
      rintro ⟨hgt, -⟩
      linarith [hs.1]
    rw [makeDecision_eq, if_neg h, if_neg hnb, if_pos hs]
  · rw [makeDecision_eq, if_neg h, if_neg hnb, if_neg hns]

/-- Witness for C2, Scenarios A and B of the spec: price 100, predicted
103, confidence 0.8, minConfidence 0.5 yields buy; price 100, predicted
98.5, confidence 0.9 yields hold for insufficient magnitude. -/
theorem decision_thresholds_witness :
    ¬ (0.8 : ℚ) < 0.5 ∧
      makeDecision ⟨"agent", 0.1, 0.05, 0.5⟩
          ⟨⟨"ETH", 100, 0, 0, none, none, none⟩, 103, 0.8, getPortfolioStatus⟩ =
        ⟨.buy, 0.8,
          some (calculatePositionSize ⟨"agent", 0.1, 0.05, 0.5⟩ 1000 0.8),
          .predictedIncrease
            (priceChange ⟨⟨"ETH", 100, 0, 0, none, none, none⟩, 103, 0.8, getPortfolioStatus⟩)⟩ ∧
      makeDecision ⟨"agent", 0.1, 0.05, 0.5⟩
          ⟨⟨"ETH", 100, 0, 0, none, none, none⟩, 98.5, 0.9, getPortfolioStatus⟩ =
        ⟨.hold, 0.9, none,
          .insufficientChange
            (priceChange ⟨⟨"ETH", 100, 0, 0, none, none, none⟩, 98.5, 0.9, getPortfolioStatus⟩)⟩ := by
  have hA : priceChange
      ⟨⟨"ETH", 100, 0, 0, none, none, none⟩, 103, 0.8, getPortfolioStatus⟩ = 3 / 100 := by
    norm_num [priceChange]
  have hB : priceChange
      ⟨⟨"ETH", 100, 0, 0, none, none, none⟩, 98.5, 0.9, getPortfolioStatus⟩ = -(3 / 200) := by
    norm_num [priceChange]
  refine ⟨by norm_num, (decision_thresholds _ _ (by norm_num)).1 ⟨?_, ?_⟩,
    (decision_thresholds _ _ (by norm_num)).2.2 ?_ ?_⟩
  · rw [hA]
    norm_num
  · rw [hA, abs_of_pos (by norm_num : (0 : ℚ) < 3 / 100)]
    norm_num
  · rw [hB]
    rintro ⟨h1, -⟩
    norm_num at h1
  · rw [hB]
    rintro ⟨h1, -⟩
    norm_num at h1

/-- C3: for non-negative balance and fractions in [0,1],
`calculatePositionSize` is exactly the minimum of
balance * riskTolerance * confidence and balance * maxPositionSize, and
that amount lies in [0, balance * maxPositionSize]. -/
theorem position_size_formula_and_bounds (config : AgentConfig) (balance confidence : ℚ)
    (hb : 0 ≤ balance) (hc0 : 0 ≤ confidence) (hc1 : confidence ≤ 1)
    (hr0 : 0 ≤ config.riskTolerance) (hr1 : config.riskTolerance ≤ 1)
    (hm0 : 0 ≤ config.maxPositionSize) (hm1 : config.maxPositionSize ≤ 1) :
    calculatePositionSize config balance confidence =
      min (balance * config.riskTolerance * confidence) (balance * config.maxPositionSize) ∧
    0 ≤ calculatePositionSize config balance confidence ∧
    calculatePositionSize config balance confidence ≤ balance * config.maxPositionSize := by
  refine ⟨rfl, ?_, min_le_right _ _⟩
  exact le_min (mul_nonneg (mul_nonneg hb hr0) hc0) (mul_nonneg hb hm0)

/-- Witness for C3, Scenario D of the spec: balance 1000, riskTolerance
0.1, maxPositionSize 0.05, confidence 0.8 gives min(80, 50) = 50, within
[0, 50]. -/
theorem position_size_formula_and_bounds_witness :
    calculatePositionSize ⟨"agent", 0.1, 0.05, 0.5⟩ 1000 0.8 =
      min ((1000 : ℚ) * 0.1 * 0.8) ((1000 : ℚ) * 0.05) ∧
    0 ≤ calculatePositionSize ⟨"agent", 0.1, 0.05, 0.5⟩ 1000 0.8 ∧
    calculatePositionSize ⟨"agent", 0.1, 0.05, 0.5⟩ 1000 0.8 ≤ (1000 : ℚ) * 0.05 :=
  position_size_formula_and_bounds ⟨"agent", 0.1, 0.05, 0.5⟩ 1000 0.8
    (by norm_num) (by norm_num) (by norm_num) (by norm_num) (by norm_num)
    (by norm_num) (by norm_num)

/-- Counterexample to C4: `calculatePositionSize` performs no validation
and never raises.  With riskTolerance = 2 (outside [0,1]) it returns the
ordinary amount 50; with a negative balance it returns the negative
amount -50 — in both cases a value, not a ConfigurationError. -/
theorem position_size_no_validation_cex :
    calculatePositionSize ⟨"agent", 2, 0.5, 0.5⟩ 100 1 = 50 ∧
      calculatePositionSize ⟨"agent", 0.5, 0.5, 0.5⟩ (-100) 1 = -50 := by
  constructor <;> norm_num [calculatePositionSize]

/-- C4 amended: `calculatePositionSize` is total and unvalidated — for
every config, balance and confidence, including fractions outside [0,1]
and negative balances, it simply returns
min(balance * riskTolerance * confidence, balance * maxPositionSize). -/
theorem position_size_total (config : AgentConfig) (balance confidence : ℚ) :
    calculatePositionSize config balance confidence =
      min (balance * config.riskTolerance * confidence)
        (balance * config.maxPositionSize) := rfl

/-- C5: for every snapshot with positive price and every prediction, the
confidence score lies in [0.05, 0.95]; in fact the lower bound 0.06 from
baseConfidence ≥ 0.1 and trendConfidence ≥ 0.6 holds. -/
theorem confidence_score_bounds (marketData : MarketData) (prediction : ℚ)
    (hp : 0 < marketData.price) :
    0.05 ≤ calculateConfidence marketData prediction ∧
      calculateConfidence marketData prediction ≤ 0.95 := by
  obtain ⟨b, t, hb, ht, hcc⟩ : ∃ b t : ℚ, 0.1 ≤ b ∧ 0.6 ≤ t ∧
      calculateConfidence marketData prediction = min 0.95 (b * t) := by
    refine ⟨max 0.1 (1 - |jsOr marketData.high24h marketData.price -
          jsOr marketData.low24h marketData.price| / marketData.price),
      if 0.02 < |jsOr marketData.change24h 0| then (0.8 : ℚ) else 0.6,
      le_max_left _ _, ?_, rfl⟩
    split_ifs <;> norm_num
  have hbt : (0.1 : ℚ) * 0.6 ≤ b * t :=
    mul_le_mul hb ht (by norm_num) (le_trans (by norm_num) hb)
  rw [hcc]
  exact ⟨le_min (by norm_num) (by nlinarith), min_le_left _ _⟩

/-- Witness for C5: a concrete snapshot with price 100, daily high 105,
low 95, change 0.01, predicted price 103. -/
theorem confidence_score_bounds_witness :
    (0 : ℚ) < 100 ∧
      (0.05 ≤ calculateConfidence ⟨"ETH", 100, 0, 0, some 105, some 95, some 0.01⟩ 103 ∧
        calculateConfidence ⟨"ETH", 100, 0, 0, some 105, some 95, some 0.01⟩ 103 ≤ 0.95) :=
  ⟨by norm_num, confidence_score_bounds ⟨"ETH", 100, 0, 0, some 105, some 95, some 0.01⟩ 103
    (by norm_num)⟩

/-- C9: the confidence score depends only on the market snapshot, not on
the predicted price: `priceDirection`, the only quantity computed from
the prediction, is never used in the returned value. -/
theorem confidence_ignores_prediction (marketData : MarketData) (p₁ p₂ : ℚ) :
    calculateConfidence marketData p₁ = calculateConfidence marketData p₂ := rfl

/-- Counterexample to C6: in part_002, a predictor failure during
`analyzeMarket` propagates out of the per-symbol analysis as an error —
no degraded hold decision is produced there (the `catch` rethrows). -/
theorem prediction_failure_propagates_cex :
    analyzeMarket true (.ok ⟨"ETH", 100, 0, 0, none, none, none⟩)
        (fun _ => .error .predictionFailure) ⟨"agent", 0.1, 0.05, 0.5⟩ =
      .error .predictionFailure := rfl

/-- C6 amended: only the ai-agents variant recovers a failed forecast
locally — `analyzeMarketAndGenerateSignal` returns the fallback HOLD
signal with explicit low confidence 30.  In part_002, `analyzeMarket`
instead propagates the predictor error to the trading loop, which
catches it per symbol; no decision is produced for that symbol. -/
theorem prediction_failure_paths (e : AgentError) (marketDataAI : MarketDataAI)
    (marketData : MarketData) (config : AgentConfig) :
    analyzeMarketAndGenerateSignal (.error e) marketDataAI =
        generateFallbackSignal marketDataAI ∧
      (analyzeMarketAndGenerateSignal (.error e) marketDataAI).action = .HOLD ∧
      (analyzeMarketAndGenerateSignal (.error e) marketDataAI).confidence = 30 ∧
      analyzeMarket true (.ok marketData) (fun _ => .error e) config = .error e :=
  ⟨rfl, rfl, rfl, rfl⟩

/-- C7: one tick of the trading loop processes every configured symbol:
the result pairs each symbol, in order, with the outcome of its own
`tickStep` only.  A symbol whose step raises contributes `none` (the
`catch` logs it) and the entries of all other symbols are exactly what
they would be in isolation, so no failure aborts the rest of the tick. -/
theorem tick_processes_all_symbols (analyze : String → Except AgentError TradingDecision)
    (clientExecuteTrade : TradeParams → Except AgentError Bool) (symbols : List String) :
    tradingLoop analyze clientExecuteTrade symbols =
      symbols.map (fun symbol =>
        (symbol, (tickStep analyze clientExecuteTrade symbol).toOption)) := by
  induction symbols with
  | nil => rfl
  | cons s rest ih => simp [tradingLoop, ih]

/-- C8 (code bug): after a successful `startTrading`, calling `stop`
leaves the interval timer registered — `timerFiresNewTick` still holds,
so a new tick starts at the next firing even though the agent was
stopped; `stop` is idempotent. -/
theorem stop_leaves_interval_active (s s1 : AgentState)
    (h : startTrading s = .ok s1) :
    timerFiresNewTick (stop s1) = true ∧ stop (stop s1) = stop s1 := by
  unfold startTrading at h
  by_cases hi : s.isInitialized
  · rw [if_pos hi] at h
    cases h
    exact ⟨rfl, rfl⟩
  · rw [if_neg hi] at h
    cases h

/-- Witness for C8: starting from an initialized agent with no timer,
`startTrading` registers the timer; after `stop` the timer still fires. -/
theorem stop_leaves_interval_active_witness :
    timerFiresNewTick (stop ⟨true, true⟩) = true ∧
      stop (stop ⟨true, true⟩) = stop ⟨true, true⟩ :=
  stop_leaves_interval_active ⟨true, false⟩ ⟨true, true⟩ rfl

/-- C10: `executeTrade` is total — it always returns a boolean pair.  A
hold decision returns true without invoking the client; otherwise the
result is exactly the client's handled outcome, and in particular an
exception thrown by the client is caught and mapped to false. -/
theorem execute_trade_total (clientExecuteTrade : TradeParams → Except AgentError Bool)
    (decision : TradingDecision) (symbol : String) :
    (decision.action = .hold →
        executeTrade clientExecuteTrade decision symbol = (true, false)) ∧
    (decision.action ≠ .hold →
        executeTrade clientExecuteTrade decision symbol =
          match clientExecuteTrade
              ⟨decision.action, symbol, decision.amount.getD 0, 0.005⟩ with
          | .ok success => (success, true)
          | .error _ => (false, true)) ∧
    (∀ e : AgentError, decision.action ≠ .hold →
        clientExecuteTrade ⟨decision.action, symbol, decision.amount.getD 0, 0.005⟩ =
          .error e →
        executeTrade clientExecuteTrade decision symbol = (false, true)) := by
  refine ⟨fun h => ?_, fun h => ?_, fun e h he => ?_⟩
  · simp [executeTrade, h]
  · simp [executeTrade, h]
  · simp [executeTrade, h, he]

/-- Witness for C10: a hold decision returns (true, false) even against a
client that always throws; a buy decision against that client returns
(false, true). -/
theorem execute_trade_total_witness :
    executeTrade (fun _ => .error .executionFailure)
        ⟨.hold, 0.5, none, .insufficientChange 0⟩ "ETH" = (true, false) ∧
      executeTrade (fun _ => .error .executionFailure)
        ⟨.buy, 0.8, some 50, .predictedIncrease 0.03⟩ "ETH" = (false, true) :=
  ⟨(execute_trade_total _ _ _).1 rfl,
    (execute_trade_total _ _ _).2.2 .executionFailure (by simp) rfl⟩
